import Mathlib

/-!
# Verification of the Game Boy emulator core (rust_boi)

Shallow embedding of the emulator's register file, memory bus, instruction
executors and PPU state machine, translated from the Rust source
(`src/registers.rs`, `src/memory.rs`, `src/instructions.rs`, `src/ppu.rs`).

Machine integers are modelled as `Nat` with explicit `% 2^w` (or masking)
exactly where the source wraps; Rust's checked arithmetic (plain `+`/`-` on
`u8`/`u16`, which aborts on overflow) and `todo!()`/`unwrap()` panics are
modelled by `Option`.
-/

namespace RustBoi

/-- Checked `u8` addition: Rust `a + b` on `u8` aborts on overflow. -/
def u8checkedAdd (a b : Nat) : Option Nat :=
  if a + b ≤ 0xFF then some (a + b) else none

/-- Checked `u8` subtraction: Rust `a - b` on `u8` aborts on underflow. -/
def u8checkedSub (a b : Nat) : Option Nat :=
  if b ≤ a then some (a - b) else none

/-- Checked `u16` addition: Rust `a + b` on `u16` aborts on overflow. -/
def u16checkedAdd (a b : Nat) : Option Nat :=
  if a + b ≤ 0xFFFF then some (a + b) else none

/-- Checked `u16` subtraction: Rust `a - b` on `u16` aborts on underflow. -/
def u16checkedSub (a b : Nat) : Option Nat :=
  if b ≤ a then some (a - b) else none

/-- `u8::overflowing_add`: returns the wrapped sum and the carry-out. -/
def overflowingAdd8 (a b : Nat) : Nat × Bool :=
  ((a + b) % 256, decide (a + b > 0xFF))

/-- `u8::overflowing_sub`: returns the wrapped difference and the borrow. -/
def overflowingSub8 (a b : Nat) : Nat × Bool :=
  (if b ≤ a then a - b else a + 256 - b, decide (a < b))

/-- `u16::overflowing_add`. -/
def overflowingAdd16 (a b : Nat) : Nat × Bool :=
  ((a + b) % 65536, decide (a + b > 0xFFFF))

/-! ## Register file (`src/registers.rs`) -/

/-- `RegisterPair { l, r }`: `l` is the high byte, `r` the low byte. -/
structure RegisterPair where
  l : Nat
  r : Nat
deriving DecidableEq, Repr

/-- The closed enum of 8-bit registers (`SmallRegister` / `R8`). -/
inductive R8 : Type
  | B | C | A | F | D | E | H | L
deriving DecidableEq, Repr

/-- The closed enum of 16-bit registers (`WideRegister` / `R16`). -/
inductive R16 : Type
  | PC | SP | BC | AF | DE | HL
deriving DecidableEq, Repr

def ZERO_FLAG : Nat := 0x80
def SUBTRACT_FLAG : Nat := 0x40
def HALF_CARRY_FLAG : Nat := 0x20
def CARRY_FLAG : Nat := 0x10

/-- `Registers`: PC, SP and the four pairs. -/
structure Registers where
  pc : Nat
  sp : Nat
  bc : RegisterPair
  af : RegisterPair
  de : RegisterPair
  hl : RegisterPair
deriving DecidableEq, Repr

/-- `Registers::default()`: all zero. -/
def Registers.default : Registers :=
  ⟨0, 0, ⟨0, 0⟩, ⟨0, 0⟩, ⟨0, 0⟩, ⟨0, 0⟩⟩

/-- `From<u16> for RegisterPair`: `l = value >> 8`, `r = value & 0xFF`. -/
def RegisterPair.ofU16 (value : Nat) : RegisterPair :=
  ⟨(value >>> 8) % 256, value &&& 0xFF⟩

/-- `From<RegisterPair> for u16`: `(l << 8) | r`. -/
def RegisterPair.toU16 (p : RegisterPair) : Nat :=
  (p.l <<< 8) ||| p.r

/-- `Registers::read_r8`: direct field access, no masking anywhere. -/
def Registers.read_r8 (regs : Registers) : R8 → Nat
  | R8.B => regs.bc.l
  | R8.C => regs.bc.r
  | R8.A => regs.af.l
  | R8.F => regs.af.r
  | R8.D => regs.de.l
  | R8.E => regs.de.r
  | R8.H => regs.hl.l
  | R8.L => regs.hl.r

/-- `Registers::write_r8`: direct field assignment; note that the source
stores the value verbatim for every register, including `F`. -/
def Registers.write_r8 (regs : Registers) (reg : R8) (value : Nat) : Registers :=
  match reg with
  | R8.B => { regs with bc := ⟨value, regs.bc.r⟩ }
  | R8.C => { regs with bc := ⟨regs.bc.l, value⟩ }
  | R8.A => { regs with af := ⟨value, regs.af.r⟩ }
  | R8.F => { regs with af := ⟨regs.af.l, value⟩ }
  | R8.D => { regs with de := ⟨value, regs.de.r⟩ }
  | R8.E => { regs with de := ⟨regs.de.l, value⟩ }
  | R8.H => { regs with hl := ⟨value, regs.hl.r⟩ }
  | R8.L => { regs with hl := ⟨regs.hl.l, value⟩ }

/-- `Registers::read_r16`. -/
def Registers.read_r16 (regs : Registers) : R16 → Nat
  | R16.PC => regs.pc
  | R16.SP => regs.sp
  | R16.BC => regs.bc.toU16
  | R16.AF => regs.af.toU16
  | R16.DE => regs.de.toU16
  | R16.HL => regs.hl.toU16

/-- `Registers::write_r16`: pairs are split via `RegisterPair::from`,
again with no masking of `F`'s low nibble for `AF`. -/
def Registers.write_r16 (regs : Registers) (reg : R16) (value : Nat) : Registers :=
  match reg with
  | R16.PC => { regs with pc := value }
  | R16.SP => { regs with sp := value }
  | R16.BC => { regs with bc := RegisterPair.ofU16 value }
  | R16.AF => { regs with af := RegisterPair.ofU16 value }
  | R16.DE => { regs with de := RegisterPair.ofU16 value }
  | R16.HL => { regs with hl := RegisterPair.ofU16 value }

def Registers.get_pc (regs : Registers) : Nat :=
  regs.read_r16 R16.PC

/-- `Registers::inc_pc`: wrapping 16-bit add. -/
def Registers.inc_pc (regs : Registers) (by' : Nat) : Registers :=
  regs.write_r16 R16.PC ((regs.get_pc + by') % 65536)

def Registers.set_pc (regs : Registers) (pc : Nat) : Registers :=
  regs.write_r16 R16.PC pc

def Registers.get_flags (regs : Registers) : Nat :=
  regs.read_r8 R8.F

/-- `Registers::set_bit_flag`: set uses `flags | bit`, clear uses
`flags & !bit` (u8 complement of the mask). -/
def Registers.set_bit_flag (flags bit : Nat) (set : Bool) : Nat :=
  match set with
  | true => flags ||| bit
  | false => flags &&& (0xFF ^^^ bit)

/-- `Registers::set_flags`: each argument optionally overrides one flag,
starting from the current `F`. -/
def Registers.set_flags (regs : Registers) (zero subtract half_carry carry : Option Bool) :
    Registers :=
  let flags := regs.read_r8 R8.F
  let flags := match zero with
    | some z => Registers.set_bit_flag flags ZERO_FLAG z
    | none => flags
  let flags := match subtract with
    | some s => Registers.set_bit_flag flags SUBTRACT_FLAG s
    | none => flags
  let flags := match half_carry with
    | some h => Registers.set_bit_flag flags HALF_CARRY_FLAG h
    | none => flags
  let flags := match carry with
    | some c => Registers.set_bit_flag flags CARRY_FLAG c
    | none => flags
  regs.write_r8 R8.F flags

/-- `Registers::carry_flag`. -/
def Registers.carry_flag (regs : Registers) : Bool :=
  regs.get_flags &&& CARRY_FLAG == CARRY_FLAG

/-! ## Instruction operand descriptor (`InstructionData`) -/

/-- The operand descriptor; unused fields are `none` and executors
`unwrap()` the ones they need (modelled as `Option.bind`). -/
structure InstructionData where
  flag_mask : Option Nat := none
  flag_expected : Option Nat := none
  r8_src : Option R8 := none
  r8_dst : Option R8 := none
  r16_src : Option R16 := none
  r16_dst : Option R16 := none
  code : Option Nat := none
  bit : Option Nat := none

/-- `check_for_half_carry_8bit`: `(lhs & 0xF) + (rhs & 0xF) > 0xF` — the
source applies this one formula to additions and subtractions alike. -/
def check_for_half_carry_8bit (lhs rhs : Nat) : Bool :=
  decide ((lhs &&& 0xF) + (rhs &&& 0xF) > 0xF)

/-! ## Memory bus (`src/memory.rs`)

The backing byte arrays (`RomChunk`, `RamChunk`) are modelled as total
functions `Nat → Nat`; the claims never depend on out-of-bounds indexing of
a well-sized image. The `todo!()` arms for echo RAM and Rust's checked
`u16` address arithmetic are the `none` cases. -/

/-- Pointwise update of a byte array. -/
def upd (f : Nat → Nat) (i v : Nat) : Nat → Nat :=
  fun j => if j = i then v else f j

def START_OF_BANKED_ROM : Nat := 0x4000
def START_OF_VRAM : Nat := 0x8000
def START_OF_CARTRIDGE_RAM : Nat := 0xA000
def START_OF_INTERNAL_RAM : Nat := 0xC000
def START_OF_ECHO_RAM : Nat := 0xE000
def END_OF_ECHO_RAM : Nat := 0xFDFF
def START_OF_HIGH_RAM : Nat := 0xFE00
def END_OF_BOOT : Nat := 0xFF
def BOOT_ROM_ADDRESS : Nat := 0xFF50

/-- `Memory`: the ownership tree of byte arrays, the boot latch and the
cycle counter. -/
structure Memory where
  boot : Nat → Nat
  cart_bank_0 : Nat → Nat
  cart_bank_n : Nat → Nat
  cart_ram : Nat → Nat
  vram : Nat → Nat
  iram : Nat → Nat
  high_ram : Nat → Nat
  boot_enabled : Bool
  cpu_cycles : Nat

/-- `Memory::new`: split the cart into the fixed and banked halves, zero
RAM, boot latch on. -/
def Memory.new (boot cart : Nat → Nat) : Memory where
  boot := boot
  cart_bank_0 := fun i => cart i
  cart_bank_n := fun i => cart (i + 0x4000)
  cart_ram := fun _ => 0
  vram := fun _ => 0
  iram := fun _ => 0
  high_ram := fun _ => 0
  boot_enabled := true
  cpu_cycles := 0

/-- `Memory::read_u8`: route by address; boot overlay while the latch is
set and `address <= 0xFF`; echo RAM is `todo!()`. -/
def Memory.read_u8 (m : Memory) (address : Nat) : Option Nat :=
  if address ≤ 0x3FFF then
    if m.boot_enabled = true ∧ address ≤ END_OF_BOOT then some (m.boot address)
    else some (m.cart_bank_0 address)
  else if address ≤ 0x7FFF then some (m.cart_bank_n (address - START_OF_BANKED_ROM))
  else if address ≤ 0x9FFF then some (m.vram (address - START_OF_VRAM))
  else if address ≤ 0xBFFF then some (m.cart_ram (address - START_OF_CARTRIDGE_RAM))
  else if address ≤ 0xDFFF then some (m.iram (address - START_OF_INTERNAL_RAM))
  else if address ≤ END_OF_ECHO_RAM then none
  else some (m.high_ram (address - START_OF_HIGH_RAM))

/-- `Memory::read_u16`: `(read_u8(address + 1) << 8) | read_u8(address)`;
the `address + 1` is a checked u16 add. -/
def Memory.read_u16 (m : Memory) (address : Nat) : Option Nat := do
  let a1 ← u16checkedAdd address 1
  let upper ← m.read_u8 a1
  let lower ← m.read_u8 address
  pure ((upper <<< 8) ||| lower)

/-- `Memory::write_high_mem`: a write to 0xFF50 clears the boot latch;
the byte is stored in `high_ram` either way. -/
def Memory.write_high_mem (m : Memory) (address value : Nat) : Memory :=
  let m := if address = BOOT_ROM_ADDRESS then { m with boot_enabled := false } else m
  { m with high_ram := upd m.high_ram (address - START_OF_HIGH_RAM) value }

/-- `Memory::write_u8`: symmetric routing; note the boot-overlay guard is
`address < 0xFF` here (strict), unlike the read path's `address <= 0xFF`. -/
def Memory.write_u8 (m : Memory) (address value : Nat) : Option Memory :=
  if address ≤ 0x3FFF then
    if m.boot_enabled = true ∧ address < END_OF_BOOT then
      some { m with boot := upd m.boot address value }
    else some { m with cart_bank_0 := upd m.cart_bank_0 address value }
  else if address ≤ 0x7FFF then
    some { m with cart_bank_n := upd m.cart_bank_n (address - START_OF_BANKED_ROM) value }
  else if address ≤ 0x9FFF then
    some { m with vram := upd m.vram (address - START_OF_VRAM) value }
  else if address ≤ 0xBFFF then
    some { m with cart_ram := upd m.cart_ram (address - START_OF_CARTRIDGE_RAM) value }
  else if address ≤ 0xDFFF then
    some { m with iram := upd m.iram (address - START_OF_INTERNAL_RAM) value }
  else if address ≤ END_OF_ECHO_RAM then none
  else some (m.write_high_mem address value)

/-- `Memory::write_u16`: high byte at `address + 1` first, then the low
byte at `address`; `address + 1` is a checked u16 add. -/
def Memory.write_u16 (m : Memory) (address value : Nat) : Option Memory := do
  let lower := value &&& 0xFF
  let upper := value >>> 8
  let a1 ← u16checkedAdd address 1
  let m1 ← m.write_u8 a1 upper
  m1.write_u8 address lower

/-! ## Stack helpers (`src/registers.rs`) -/

/-- `Registers::stack_push16`: `new_sp = sp - 2` (checked u16 subtraction),
then a 16-bit bus write at the new SP. -/
def Registers.stack_push16 (regs : Registers) (value : Nat) (memory : Memory) :
    Option (Registers × Memory) := do
  let new_sp ← u16checkedSub regs.sp 2
  let memory ← memory.write_u16 new_sp value
  pure ({ regs with sp := new_sp }, memory)

/-- `Registers::stack_pop16`: 16-bit bus read at SP, then `sp += 2`
(checked u16 addition); returns the value read. -/
def Registers.stack_pop16 (regs : Registers) (memory : Memory) :
    Option (Registers × Nat) := do
  let value ← memory.read_u16 regs.sp
  let sp ← u16checkedAdd regs.sp 2
  pure ({ regs with sp := sp }, value)

/-- `Registers::stack_peek16`: read low at SP and high at SP+1 without
moving SP. -/
def Registers.stack_peek16 (regs : Registers) (memory : Memory) : Option Nat := do
  let lower ← memory.read_u8 regs.sp
  let a1 ← u16checkedAdd regs.sp 1
  let upper ← memory.read_u8 a1
  pure ((upper <<< 8) ||| lower)

/-! ## Executors (`src/instructions.rs`)

Each executor takes `(registers, memory, descriptor)` and returns the new
`(registers, memory)`, or `none` where the source would panic
(`unwrap()` on a missing descriptor field, checked integer arithmetic,
`todo!()` on the bus). -/

/-- `pop_r16`: advance PC, pop 16 bits, store into the destination wide
register — for `AF` the popped `F` byte is stored verbatim. -/
def pop_r16 (registers : Registers) (memory : Memory) (additional : InstructionData) :
    Option (Registers × Memory) := do
  let registers := registers.inc_pc 1
  let (registers, value) ← registers.stack_pop16 memory
  let dst ← additional.r16_dst
  pure (registers.write_r16 dst value, memory)

/-- `push_r16`: advance PC, read the source wide register, push it. -/
def push_r16 (registers : Registers) (memory : Memory) (additional : InstructionData) :
    Option (Registers × Memory) := do
  let registers := registers.inc_pc 1
  let src ← additional.r16_src
  let value := registers.read_r16 src
  registers.stack_push16 value memory

/-- `sub_r8`: `A ← A - src` via `overflowing_sub`; flags
`(result==0, 1, check_for_half_carry_8bit lhs rhs, borrow)`. -/
def sub_r8 (registers : Registers) (memory : Memory) (additional : InstructionData) :
    Option (Registers × Memory) := do
  let registers := registers.inc_pc 1
  let lhs := registers.read_r8 R8.A
  let src ← additional.r8_src
  let rhs := registers.read_r8 src
  let (result, carried) := overflowingSub8 lhs rhs
  let registers := registers.write_r8 R8.A result
  let registers := registers.set_flags (some (result == 0)) (some true)
      (some (check_for_half_carry_8bit lhs rhs)) (some carried)
  pure (registers, memory)

/-- `cp_r8`: compare `A` with the source register; flags as for SUB, the
result is discarded. -/
def cp_r8 (registers : Registers) (memory : Memory) (additional : InstructionData) :
    Option (Registers × Memory) := do
  let registers := registers.inc_pc 1
  let a := registers.read_r8 R8.A
  let src ← additional.r8_src
  let value := registers.read_r8 src
  let (result, carried) := overflowingSub8 a value
  let registers := registers.set_flags (some (result == 0)) (some true)
      (some (check_for_half_carry_8bit a value)) (some carried)
  pure (registers, memory)

/-- `adc_r8`: the source computes `a.overflowing_add(value + carry)` where
`value + carry` is a checked u8 addition — it aborts when
`value = 0xFF` and the carry flag is set. -/
def adc_r8 (registers : Registers) (memory : Memory) (additional : InstructionData) :
    Option (Registers × Memory) := do
  let registers := registers.inc_pc 1
  let a := registers.read_r8 R8.A
  let src ← additional.r8_src
  let value := registers.read_r8 src
  let carry := if registers.carry_flag then 1 else 0
  let t ← u8checkedAdd value carry
  let (result, carried) := overflowingAdd8 a t
  let registers := registers.set_flags (some (result == 0)) (some false)
      (some (check_for_half_carry_8bit a value)) (some carried)
  pure (registers.write_r8 R8.A result, memory)

/-- `sbc_r8`: the source computes `lhs.overflowing_sub(rhs - carry)` —
the checked `rhs - carry` aborts when `rhs = 0` and the carry flag is
set, and otherwise subtracts `rhs - carry` instead of `rhs + carry`. -/
def sbc_r8 (registers : Registers) (memory : Memory) (additional : InstructionData) :
    Option (Registers × Memory) := do
  let registers := registers.inc_pc 1
  let lhs := registers.read_r8 R8.A
  let src ← additional.r8_src
  let rhs := registers.read_r8 src
  let carry := if registers.carry_flag then 1 else 0
  let t ← u8checkedSub rhs carry
  let (result, carried) := overflowingSub8 lhs t
  let registers := registers.write_r8 R8.A result
  let registers := registers.set_flags (some (result == 0)) (some true)
      (some (check_for_half_carry_8bit lhs rhs)) (some carried)
  pure (registers, memory)

/-- `ext_swap_r8`: the source computes `(lower << 4) & upper` (a bitwise
AND of disjoint nibbles) and stores that as the swapped value. -/
def ext_swap_r8 (registers : Registers) (memory : Memory) (additional : InstructionData) :
    Option (Registers × Memory) := do
  let registers := registers.inc_pc 2
  let register ← additional.r8_dst
  let old := registers.read_r8 register
  let lower := old &&& 0b00001111
  let upper := (old &&& 0b11110000) >>> 4
  let value := (lower <<< 4) &&& upper
  let registers := registers.write_r8 register value
  let registers := registers.set_flags (some (value == 0)) (some false)
      (some false) (some false)
  pure (registers, memory)

/-- `ext_swap_indir_r16`: the `(HL)` form of SWAP, with the same
`(lower << 4) & upper` combination. -/
def ext_swap_indir_r16 (registers : Registers) (memory : Memory)
    (additional : InstructionData) : Option (Registers × Memory) := do
  let registers := registers.inc_pc 2
  let dst ← additional.r16_dst
  let address := registers.read_r16 dst
  let old ← memory.read_u8 address
  let lower := old &&& 0b00001111
  let upper := (old &&& 0b11110000) >>> 4
  let value := (lower <<< 4) &&& upper
  let memory ← memory.write_u8 address value
  let registers := registers.set_flags (some (value == 0)) (some false)
      (some false) (some false)
  pure (registers, memory)

/-! ## PPU (`src/ppu.rs`)

`Ppu::step` drives the mode/dot/scanline state machine from the cycle
count.  Its bus side effects — latching WX/WY into the `wx`/`wy` fields,
mirroring LY at 0xFF44 and composing the scanline into the pixel buffer —
never feed back into `current_mode`, `dots_in_mode` or `scanline`, so the
embedding carries exactly those three fields.  `scanline + 1` and
`dots_in_mode += cycles * 4` are checked u8/u16 additions. -/

inductive PpuMode : Type
  | OAM | VRAM | HBLANK | VBLANK
deriving DecidableEq, Repr

structure PpuState where
  current_mode : PpuMode
  dots_in_mode : Nat
  scanline : Nat
deriving DecidableEq, Repr

/-- `Ppu::new()`: OAM, dot counter 0, LY 0. -/
def PpuState.new : PpuState := ⟨PpuMode.OAM, 0, 0⟩

/-- `Ppu::step` on the mode/dot/scanline state, returning the next state
and the frame-ready signal. -/
def PpuState.step (p : PpuState) (cpu_cycles : Nat) : Option (PpuState × Bool) := do
  let dots ← u16checkedAdd p.dots_in_mode (cpu_cycles * 4)
  match p.current_mode with
  | PpuMode.OAM =>
      if dots ≥ 80 then
        pure ({ p with current_mode := PpuMode.VRAM, dots_in_mode := dots - 80 }, false)
      else
        pure ({ p with dots_in_mode := dots }, false)
  | PpuMode.VRAM =>
      if dots ≥ 168 then
        pure ({ p with current_mode := PpuMode.HBLANK, dots_in_mode := dots - 168 }, false)
      else
        pure ({ p with dots_in_mode := dots }, false)
  | PpuMode.HBLANK =>
      if dots ≥ 208 then do
        let scanline ← u8checkedAdd p.scanline 1
        if scanline = 144 then
          pure (⟨PpuMode.VBLANK, dots - 208, scanline⟩, false)
        else
          pure (⟨PpuMode.OAM, dots - 208, scanline⟩, false)
      else
        pure ({ p with dots_in_mode := dots }, false)
  | PpuMode.VBLANK => do
      let p1 ←
        if dots ≥ 456 then do
          let scanline ← u8checkedAdd p.scanline 1
          pure (⟨PpuMode.VBLANK, 0, scanline⟩ : PpuState)
        else
          pure ({ p with dots_in_mode := dots } : PpuState)
      if p1.scanline = 153 then
        pure (⟨PpuMode.OAM, p1.dots_in_mode, 0⟩, true)
      else
        pure (p1, false)

/-- Drive the PPU for `n` steps of `cycles` M-cycles each, counting the
frame-ready signals raised along the way. -/
def ppuRun (n : Nat) (cycles : Nat) (p : PpuState) (frames : Nat) :
    Option (PpuState × Nat) :=
  match n with
  | 0 => some (p, frames)
  | n + 1 => do
      let (p, signal) ← p.step cycles
      ppuRun n cycles p (if signal then frames + 1 else frames)

/-- `Tile::value_at` as the source computes it: both bitplanes are taken
from the same byte `data[2*y]`. -/
def Tile.value_at (data : Nat → Nat) (x y : Nat) : Nat :=
  let mask_x := 1 <<< (7 - x)
  let y := y * 2
  let low := if data y &&& mask_x ≠ 0 then 1 else 0
  let high := if data y &&& mask_x ≠ 0 then 2 else 0
  low ||| high

/-- Modelled from the spec: the intended tile-pixel formula — bit `7-x` of
byte `2y` is the low bit and bit `7-x` of byte `2y+1` the high bit.  Used
only to compare `Tile::value_at` against the specified behaviour. -/
def Tile.value_at_spec (data : Nat → Nat) (x y : Nat) : Nat :=
  let mask_x := 1 <<< (7 - x)
  let low := if data (2 * y) &&& mask_x ≠ 0 then 1 else 0
  let high := if data (2 * y + 1) &&& mask_x ≠ 0 then 2 else 0
  low ||| high

/-! ## Bus operations as a sequence (for the boot-latch claim) -/

/-- One mutating bus operation. -/
inductive BusOp : Type
  | w8 (address value : Nat)
  | w16 (address value : Nat)

/-- Apply one bus operation. -/
def Memory.apply (m : Memory) : BusOp → Option Memory
  | BusOp.w8 a v => m.write_u8 a v
  | BusOp.w16 a v => m.write_u16 a v

/-- Apply a sequence of bus operations in order. -/
def Memory.applyAll (m : Memory) : List BusOp → Option Memory
  | [] => some m
  | op :: ops => do
      let m ← m.apply op
      m.applyAll ops

/-! ## Concrete fixtures used by the witnesses and counterexamples -/

/-- A bus with all-zero boot and cart images. -/
def zeroMem : Memory := Memory.new (fun _ => 0) (fun _ => 0)

/-- `zeroMem` with the internal-RAM byte at 0xC000 set to 0xFF. -/
def popMem : Memory := { zeroMem with iram := upd zeroMem.iram 0 0xFF }

/-- `zeroMem` with the VRAM byte at 0x8000 set to 0x12. -/
def swapMem : Memory := { zeroMem with vram := upd zeroMem.vram 0 0x12 }

/-- A bus whose boot image is all 7 and whose cart image is all 3, so boot
and cart reads are distinguishable. -/
def bootMem : Memory := Memory.new (fun _ => 7) (fun _ => 3)

/-- `bootMem` after the latch-clearing write to 0xFF50. -/
def bootMemOff : Memory := (bootMem.applyAll [BusOp.w8 0xFF50 5]).getD bootMem

/-- `bootMem` after a 16-bit write of 0x1234 at 0x8000 (VRAM). -/
def c8Mem : Memory := (bootMem.write_u16 0x8000 0x1234).getD bootMem

/-- The echo-RAM range 0xE000..=0xFDFF. -/
def inEcho (a : Nat) : Prop := START_OF_ECHO_RAM ≤ a ∧ a ≤ END_OF_ECHO_RAM

instance (a : Nat) : Decidable (inEcho a) := by
  unfold inEcho; infer_instance

/-! ## Helper lemmas -/

/-- `some a >>= f` reduces to `f a` in the `Option` monad. -/
theorem option_bind_some {α β : Type} (a : α) (f : α → Option β) :
    (some a >>= f) = f a := rfl

/-- `none >>= f` reduces to `none` in the `Option` monad. -/
theorem option_bind_none {α β : Type} (f : α → Option β) :
    ((none : Option α) >>= f) = none := rfl

/-- `pure a >>= f` reduces to `f a` in the `Option` monad. -/
theorem option_pure_bind {α β : Type} (a : α) (f : α → Option β) :
    (pure a >>= f) = f a := rfl

/-- Running `a + b` PPU steps is running `a` and then `b`. -/
theorem ppuRun_add (a b c : Nat) (p : PpuState) (f : Nat) :
    ppuRun (a + b) c p f = (ppuRun a c p f).bind (fun x => ppuRun b c x.1 x.2) := by
  induction a generalizing p f with
  | zero => simp [ppuRun]
  | succ n ih =>
      have h : n + 1 + b = (n + b) + 1 := by omega
      rw [h]
      simp only [ppuRun]
      cases hs : p.step c with
      | none => simp
      | some x => cases x with
        | mk p' s' => simp [ih]

/-- Chain two evaluated PPU runs. -/
theorem ppuRun_chain {a b c f f1 f2 : Nat} {p q r : PpuState}
    (h1 : ppuRun a c p f = some (q, f1)) (h2 : ppuRun b c q f1 = some (r, f2)) :
    ppuRun (a + b) c p f = some (r, f2) := by
  rw [ppuRun_add, h1]
  exact h2

/-- A `u8` bus write succeeds whenever the address is not in echo RAM. -/
theorem write_u8_some (m : Memory) (a v : Nat) (h : ¬ inEcho a) :
    ∃ m', m.write_u8 a v = some m' := by
  simp only [inEcho, START_OF_ECHO_RAM, END_OF_ECHO_RAM] at h
  unfold Memory.write_u8 END_OF_BOOT END_OF_ECHO_RAM
  split_ifs <;> first | exact ⟨_, rfl⟩ | (exfalso; omega)

/-- A `u8` bus write never turns the boot latch back on. -/
theorem write_u8_boot_off {m m' : Memory} {a v : Nat}
    (h : m.write_u8 a v = some m') (hoff : m.boot_enabled = false) :
    m'.boot_enabled = false := by
  simp only [Memory.write_u8, Memory.write_high_mem] at h
  split_ifs at h <;> simp only [Option.some.injEq] at h <;> subst h <;>
    first | rfl | exact hoff

/-- A `u16` bus write never turns the boot latch back on. -/
theorem write_u16_boot_off {m m' : Memory} {a v : Nat}
    (h : m.write_u16 a v = some m') (hoff : m.boot_enabled = false) :
    m'.boot_enabled = false := by
  simp only [Memory.write_u16] at h
  cases h1 : u16checkedAdd a 1 with
  | none =>
      simp only [h1, option_bind_none] at h
      exact Option.noConfusion h
  | some a1 =>
      simp only [h1, option_bind_some] at h
      cases h2 : m.write_u8 a1 (v >>> 8) with
      | none =>
          simp only [h2, option_bind_none] at h
          exact Option.noConfusion h
      | some m1 =>
          simp only [h2, option_bind_some] at h
          exact write_u8_boot_off h (write_u8_boot_off h2 hoff)

/-- No single bus operation turns the boot latch back on. -/
theorem apply_boot_off {m m' : Memory} {op : BusOp}
    (h : m.apply op = some m') (hoff : m.boot_enabled = false) :
    m'.boot_enabled = false := by
  cases op with
  | w8 a v => exact write_u8_boot_off h hoff
  | w16 a v => exact write_u16_boot_off h hoff

/-- No sequence of bus operations turns the boot latch back on. -/
theorem applyAll_boot_off : ∀ (ops : List BusOp) {m m' : Memory},
    m.applyAll ops = some m' → m.boot_enabled = false → m'.boot_enabled = false := by
  intro ops
  induction ops with
  | nil =>
      intro m m' h hoff
      simp only [Memory.applyAll, Option.some.injEq] at h
      exact h ▸ hoff
  | cons op ops ih =>
      intro m m' h hoff
      simp only [Memory.applyAll] at h
      cases hop : m.apply op with
      | none =>
          simp only [hop, option_bind_none] at h
          exact Option.noConfusion h
      | some m1 =>
          simp only [hop, option_bind_some] at h
          exact ih h (apply_boot_off hop hoff)

/-- While the latch is set, reads of the low 256 addresses return boot
ROM bytes. -/
theorem read_u8_boot_on {m : Memory} {k : Nat}
    (hb : m.boot_enabled = true) (hk : k ≤ 0xFF) :
    m.read_u8 k = some (m.boot k) := by
  unfold Memory.read_u8
  rw [if_pos (by omega : k ≤ 0x3FFF), if_pos ⟨hb, by unfold END_OF_BOOT; omega⟩]

/-- With the latch clear, reads of the low 256 addresses return cartridge
bank-0 bytes. -/
theorem read_u8_boot_off_low {m : Memory} {k : Nat}
    (hb : m.boot_enabled = false) (hk : k ≤ 0xFF) :
    m.read_u8 k = some (m.cart_bank_0 k) := by
  unfold Memory.read_u8
  rw [if_pos (by omega : k ≤ 0x3FFF),
    if_neg (by rintro ⟨hbe, _⟩; rw [hb] at hbe; exact Bool.noConfusion hbe)]

/-- The effect of the latch-clearing write at 0xFF50. -/
theorem write_u8_ff50 (m : Memory) (v : Nat) :
    m.write_u8 0xFF50 v
      = some { m with boot_enabled := false,
                      high_ram := upd m.high_ram 0x150 v } := rfl

/-- Reading back the just-written address: a successful `u8` write at `a`
is read back at `a`, provided `a` is not the boot-overlay seam 0xFF
(written to bank 0 but read from the boot ROM while the latch is set). -/
theorem read_after_write_u8_same {m m' : Memory} {a v : Nat}
    (hboot : m.boot_enabled = true → a ≠ 0xFF)
    (h : m.write_u8 a v = some m') :
    m'.read_u8 a = some v := by
  simp only [Memory.write_u8, Memory.write_high_mem, END_OF_BOOT, END_OF_ECHO_RAM,
    START_OF_BANKED_ROM, START_OF_VRAM, START_OF_CARTRIDGE_RAM, START_OF_INTERNAL_RAM,
    START_OF_HIGH_RAM, BOOT_ROM_ADDRESS] at h
  split_ifs at h <;> simp only [Option.some.injEq] at h <;> subst h <;>
    (unfold Memory.read_u8 END_OF_BOOT END_OF_ECHO_RAM; dsimp only) <;>
    split_ifs with hr <;>
    first
      | (simp only [upd, START_OF_BANKED_ROM, START_OF_VRAM, START_OF_CARTRIDGE_RAM,
          START_OF_INTERNAL_RAM, START_OF_HIGH_RAM, if_true])
      | (rename_i hw1 hw2
         exact absurd ⟨hw2.1, by omega⟩ hr)
      | (rename_i hw1 hw2
         exact absurd ⟨hr.1, by have := hboot hr.1; omega⟩ hw2)

set_option maxRecDepth 4000 in
set_option maxHeartbeats 2000000 in
/-- A successful `u8` write at `a` leaves every read at `b ≠ a` unchanged,
except that the latch-clearing write at 0xFF50 switches boot-overlay
reads over to bank 0 (`hlatch` rules that aliasing out). -/
theorem read_after_write_u8_other {m m' : Memory} {a b v : Nat}
    (h : m.write_u8 a v = some m') (hne : b ≠ a)
    (hlatch : a = 0xFF50 → ¬(m.boot_enabled = true ∧ b ≤ 0xFF)) :
    m'.read_u8 b = m.read_u8 b := by
  simp only [Memory.write_u8, Memory.write_high_mem, END_OF_BOOT, END_OF_ECHO_RAM,
    START_OF_BANKED_ROM, START_OF_VRAM, START_OF_CARTRIDGE_RAM, START_OF_INTERNAL_RAM,
    START_OF_HIGH_RAM, BOOT_ROM_ADDRESS] at h
  split_ifs at h <;> simp only [Option.some.injEq] at h <;> subst h <;>
    (unfold Memory.read_u8 END_OF_BOOT END_OF_ECHO_RAM START_OF_BANKED_ROM START_OF_VRAM
      START_OF_CARTRIDGE_RAM START_OF_INTERNAL_RAM START_OF_HIGH_RAM; dsimp only) <;>
    split_ifs <;>
    first
      | (with_reducible rfl)
      | (simp only [upd]; rw [if_neg (by omega)])
      | (rename_i hx; exact hx.1.elim)
      | (rename_i hx hy; exact hx.1.elim)
      | (rename_i hx; exact absurd hx (hlatch (by omega)))

/-- A `u16` bus write succeeds when neither touched byte is in echo RAM
and the high address does not overflow. -/
theorem write_u16_some (m : Memory) (a v : Nat) (ha : a + 1 ≤ 0xFFFF)
    (h1 : ¬ inEcho a) (h2 : ¬ inEcho (a + 1)) :
    ∃ m', m.write_u16 a v = some m' := by
  obtain ⟨m1, hm1⟩ := write_u8_some m (a + 1) (v >>> 8) h2
  obtain ⟨m2, hm2⟩ := write_u8_some m1 a (v &&& 0xFF) h1
  refine ⟨m2, ?_⟩
  unfold Memory.write_u16 u16checkedAdd
  rw [if_pos ha]
  simp only [option_bind_some, hm1, hm2]

/-! ## Claim theorems -/

/-- C1: the claim says every write to `F` masks the low nibble to zero.
The code does not mask anywhere: `write_r8` stores the byte verbatim into
`F`, `write_r16` stores the low byte of the value verbatim into `F` for
`AF`, and `POP AF` (via `pop_r16`) leaves the popped low nibble in `F`:
popping the word 0x00FF leaves `F = 0xFF`, whose low nibble is 0xF. -/
theorem C1_f_low_nibble_not_masked :
    ((Registers.default.write_r8 R8.F 0xAB).read_r8 R8.F = 0xAB ∧ 0xAB &&& 0xF = 0xB)
    ∧ ((Registers.default.write_r16 R16.AF 0x12FF).read_r8 R8.F = 0xFF)
    ∧ ((pop_r16 { Registers.default with sp := 0xC000 } popMem
          { r16_dst := some R16.AF }).map (fun rm => rm.1.read_r8 R8.F) = some 0xFF
        ∧ 0xFF &&& 0xF ≠ 0) := by
  decide

/-- C2: for SUB/CP the claim (and the textbook rule the spec declares
authoritative) sets `H = (a & 0xF) < (b & 0xF)`.  The code instead applies
the addition formula `(a & 0xF) + (b & 0xF) > 0xF`.  At `A = 0x10`,
`b = 0x01` the half-borrow is real (`0 < 1`) yet both `sub_r8` and `cp_r8`
leave the `H` bit clear; `Z`, `N` and `C` agree with the claim here. -/
theorem C2_sub_cp_half_carry_wrong_formula :
    ((sub_r8 ((Registers.default.write_r8 R8.A 0x10).write_r8 R8.B 0x01) zeroMem
        { r8_src := some R8.B }).map
          (fun rm => rm.1.get_flags &&& HALF_CARRY_FLAG) = some 0)
    ∧ ((cp_r8 ((Registers.default.write_r8 R8.A 0x10).write_r8 R8.B 0x01) zeroMem
        { r8_src := some R8.B }).map
          (fun rm => rm.1.get_flags &&& HALF_CARRY_FLAG) = some 0)
    ∧ (0x10 &&& 0xF) < (0x01 &&& 0xF) := by
  decide

/-- C3: the claim says ADC/SBC fold the carry into the wide computation,
in particular at the byte limits.  The code's `adc_r8` pre-adds
`value + carry` in `u8` and aborts at `value = 0xFF`, `carry = 1`;
its `sbc_r8` computes `A - (value - carry)`: at `A = 5`, `value = 1`,
`carry = 1` it leaves `A = 5` where the claim requires
`(5 - 1 - 1) mod 256 = 3`. -/
theorem C3_adc_sbc_carry_misfolded :
    (adc_r8 (((Registers.default.write_r8 R8.A 5).write_r8 R8.B 0xFF).write_r8
        R8.F 0x10) zeroMem { r8_src := some R8.B }).isSome = false
    ∧ ((sbc_r8 (((Registers.default.write_r8 R8.A 5).write_r8 R8.B 1).write_r8
        R8.F 0x10) zeroMem { r8_src := some R8.B }).map
          (fun rm => rm.1.read_r8 R8.A) = some 5)
    ∧ (5 + 256 - (1 + 1)) % 256 = 3 ∧ (5 : Nat) ≠ 3 := by
  decide

/-- C4: the claim says SWAP exchanges the nibbles (`0x12 ↦ 0x21`) and is
an involution.  The code combines the shifted nibbles with `&` instead of
`|`, so both the register and the `(HL)` form always produce 0 — applying
SWAP twice to 0x12 yields 0, not 0x12. -/
theorem C4_swap_always_zero :
    ((ext_swap_r8 (Registers.default.write_r8 R8.B 0x12) zeroMem
        { r8_dst := some R8.B }).map (fun rm => rm.1.read_r8 R8.B) = some 0)
    ∧ ((ext_swap_indir_r16 (Registers.default.write_r16 R16.HL 0x8000) swapMem
        { r16_dst := some R16.HL }).bind (fun rm => rm.2.read_u8 0x8000) = some 0)
    ∧ ((0x12 &&& 0xF) <<< 4 ||| (0x12 >>> 4) = 0x21)
    ∧ ((0 : Nat) ≠ 0x21) ∧ ((0 : Nat) ≠ 0x12) := by
  decide

/-- C6: the claim builds the 2-bit pixel from the two distinct bitplane
bytes `data[2y]` (low) and `data[2y+1]` (high).  The code reads
`data[2y]` for both bits, so every pixel it produces is 0 or 3: on the
tile with `data[0] = 0x80`, `data[1] = 0` the claim gives pixel 1 at
`(0,0)` while the code gives 3. -/
theorem C6_tile_bitplanes_same_byte :
    Tile.value_at (fun i => if i = 0 then 0x80 else 0) 0 0 = 3
    ∧ Tile.value_at_spec (fun i => if i = 0 then 0x80 else 0) 0 0 = 1
    ∧ ∀ data x y, Tile.value_at data x y = 0 ∨ Tile.value_at data x y = 3 := by
  refine ⟨by decide, by decide, ?_⟩
  intro data x y
  unfold Tile.value_at
  dsimp only
  by_cases h : data (y * 2) &&& 1 <<< (7 - x) ≠ 0
  · rw [if_pos h, if_pos h]
    right; rfl
  · rw [if_neg h, if_neg h]
    left; rfl

set_option maxRecDepth 8000 in
/-- C5: starting from OAM, LY 0, dots 0 and stepping 1 M-cycle (4 dots) at
a time, the claim expects the single frame-ready signal after exactly 70224
dots with LY back at 0.  In the code the VBLANK arm reports frame-ready in
the very step that increments LY to 153 (and zeroes the carried dots), so
line 153 lasts 0 dots: the signal fires after 69768 dots (17442 M-cycles)
with LY 0, and after 70224 dots (17556 M-cycles) the PPU is already one
scanline into the next frame with LY = 1, not 0. -/
theorem C5_frame_ready_early_ly_off :
    ppuRun 17442 1 PpuState.new 0 = some (⟨PpuMode.OAM, 0, 0⟩, 1)
    ∧ ppuRun 17556 1 PpuState.new 0 = some (⟨PpuMode.OAM, 0, 1⟩, 1)
    ∧ (1 : Nat) ≠ 0 := by
  have h1 : ppuRun 798 1 (⟨PpuMode.OAM, 0, 0⟩ : PpuState) 0 = some (⟨PpuMode.OAM, 0, 7⟩, 0) := by decide
  have h2 : ppuRun 798 1 (⟨PpuMode.OAM, 0, 7⟩ : PpuState) 0 = some (⟨PpuMode.OAM, 0, 14⟩, 0) := by decide
  have h3 : ppuRun 798 1 (⟨PpuMode.OAM, 0, 14⟩ : PpuState) 0 = some (⟨PpuMode.OAM, 0, 21⟩, 0) := by decide
  have h4 : ppuRun 798 1 (⟨PpuMode.OAM, 0, 21⟩ : PpuState) 0 = some (⟨PpuMode.OAM, 0, 28⟩, 0) := by decide
  have h5 : ppuRun 798 1 (⟨PpuMode.OAM, 0, 28⟩ : PpuState) 0 = some (⟨PpuMode.OAM, 0, 35⟩, 0) := by decide
  have h6 : ppuRun 798 1 (⟨PpuMode.OAM, 0, 35⟩ : PpuState) 0 = some (⟨PpuMode.OAM, 0, 42⟩, 0) := by decide
  have h7 : ppuRun 798 1 (⟨PpuMode.OAM, 0, 42⟩ : PpuState) 0 = some (⟨PpuMode.OAM, 0, 49⟩, 0) := by decide
  have h8 : ppuRun 798 1 (⟨PpuMode.OAM, 0, 49⟩ : PpuState) 0 = some (⟨PpuMode.OAM, 0, 56⟩, 0) := by decide
  have h9 : ppuRun 798 1 (⟨PpuMode.OAM, 0, 56⟩ : PpuState) 0 = some (⟨PpuMode.OAM, 0, 63⟩, 0) := by decide
  have h10 : ppuRun 798 1 (⟨PpuMode.OAM, 0, 63⟩ : PpuState) 0 = some (⟨PpuMode.OAM, 0, 70⟩, 0) := by decide
  have h11 : ppuRun 798 1 (⟨PpuMode.OAM, 0, 70⟩ : PpuState) 0 = some (⟨PpuMode.OAM, 0, 77⟩, 0) := by decide
  have h12 : ppuRun 798 1 (⟨PpuMode.OAM, 0, 77⟩ : PpuState) 0 = some (⟨PpuMode.OAM, 0, 84⟩, 0) := by decide
  have h13 : ppuRun 798 1 (⟨PpuMode.OAM, 0, 84⟩ : PpuState) 0 = some (⟨PpuMode.OAM, 0, 91⟩, 0) := by decide
  have h14 : ppuRun 798 1 (⟨PpuMode.OAM, 0, 91⟩ : PpuState) 0 = some (⟨PpuMode.OAM, 0, 98⟩, 0) := by decide
  have h15 : ppuRun 798 1 (⟨PpuMode.OAM, 0, 98⟩ : PpuState) 0 = some (⟨PpuMode.OAM, 0, 105⟩, 0) := by decide
  have h16 : ppuRun 798 1 (⟨PpuMode.OAM, 0, 105⟩ : PpuState) 0 = some (⟨PpuMode.OAM, 0, 112⟩, 0) := by decide
  have h17 : ppuRun 798 1 (⟨PpuMode.OAM, 0, 112⟩ : PpuState) 0 = some (⟨PpuMode.OAM, 0, 119⟩, 0) := by decide
  have h18 : ppuRun 798 1 (⟨PpuMode.OAM, 0, 119⟩ : PpuState) 0 = some (⟨PpuMode.OAM, 0, 126⟩, 0) := by decide
  have h19 : ppuRun 798 1 (⟨PpuMode.OAM, 0, 126⟩ : PpuState) 0 = some (⟨PpuMode.OAM, 0, 133⟩, 0) := by decide
  have h20 : ppuRun 798 1 (⟨PpuMode.OAM, 0, 133⟩ : PpuState) 0 = some (⟨PpuMode.OAM, 0, 140⟩, 0) := by decide
  have h21 : ppuRun 798 1 (⟨PpuMode.OAM, 0, 140⟩ : PpuState) 0 = some (⟨PpuMode.VBLANK, 0, 147⟩, 0) := by decide
  have hA : ppuRun 684 1 (⟨PpuMode.VBLANK, 0, 147⟩ : PpuState) 0 = some (⟨PpuMode.OAM, 0, 0⟩, 1) := by decide
  have hB : ppuRun 114 1 (⟨PpuMode.OAM, 0, 0⟩ : PpuState) 1 = some (⟨PpuMode.OAM, 0, 1⟩, 1) := by decide
  have t1 : ppuRun 798 1 PpuState.new 0 = some ((⟨PpuMode.OAM, 0, 7⟩ : PpuState), 0) := h1
  have t2 : ppuRun 1596 1 PpuState.new 0 = some ((⟨PpuMode.OAM, 0, 14⟩ : PpuState), 0) := by
    rw [show (1596 : Nat) = 798 + 798 by norm_num]
    exact ppuRun_chain t1 h2
  have t3 : ppuRun 2394 1 PpuState.new 0 = some ((⟨PpuMode.OAM, 0, 21⟩ : PpuState), 0) := by
    rw [show (2394 : Nat) = 1596 + 798 by norm_num]
    exact ppuRun_chain t2 h3
  have t4 : ppuRun 3192 1 PpuState.new 0 = some ((⟨PpuMode.OAM, 0, 28⟩ : PpuState), 0) := by
    rw [show (3192 : Nat) = 2394 + 798 by norm_num]
    exact ppuRun_chain t3 h4
  have t5 : ppuRun 3990 1 PpuState.new 0 = some ((⟨PpuMode.OAM, 0, 35⟩ : PpuState), 0) := by
    rw [show (3990 : Nat) = 3192 + 798 by norm_num]
    exact ppuRun_chain t4 h5
  have t6 : ppuRun 4788 1 PpuState.new 0 = some ((⟨PpuMode.OAM, 0, 42⟩ : PpuState), 0) := by
    rw [show (4788 : Nat) = 3990 + 798 by norm_num]
    exact ppuRun_chain t5 h6
  have t7 : ppuRun 5586 1 PpuState.new 0 = some ((⟨PpuMode.OAM, 0, 49⟩ : PpuState), 0) := by
    rw [show (5586 : Nat) = 4788 + 798 by norm_num]
    exact ppuRun_chain t6 h7
  have t8 : ppuRun 6384 1 PpuState.new 0 = some ((⟨PpuMode.OAM, 0, 56⟩ : PpuState), 0) := by
    rw [show (6384 : Nat) = 5586 + 798 by norm_num]
    exact ppuRun_chain t7 h8
  have t9 : ppuRun 7182 1 PpuState.new 0 = some ((⟨PpuMode.OAM, 0, 63⟩ : PpuState), 0) := by
    rw [show (7182 : Nat) = 6384 + 798 by norm_num]
    exact ppuRun_chain t8 h9
  have t10 : ppuRun 7980 1 PpuState.new 0 = some ((⟨PpuMode.OAM, 0, 70⟩ : PpuState), 0) := by
    rw [show (7980 : Nat) = 7182 + 798 by norm_num]
    exact ppuRun_chain t9 h10
  have t11 : ppuRun 8778 1 PpuState.new 0 = some ((⟨PpuMode.OAM, 0, 77⟩ : PpuState), 0) := by
    rw [show (8778 : Nat) = 7980 + 798 by norm_num]
    exact ppuRun_chain t10 h11
  have t12 : ppuRun 9576 1 PpuState.new 0 = some ((⟨PpuMode.OAM, 0, 84⟩ : PpuState), 0) := by
    rw [show (9576 : Nat) = 8778 + 798 by norm_num]
    exact ppuRun_chain t11 h12
  have t13 : ppuRun 10374 1 PpuState.new 0 = some ((⟨PpuMode.OAM, 0, 91⟩ : PpuState), 0) := by
    rw [show (10374 : Nat) = 9576 + 798 by norm_num]
    exact ppuRun_chain t12 h13
  have t14 : ppuRun 11172 1 PpuState.new 0 = some ((⟨PpuMode.OAM, 0, 98⟩ : PpuState), 0) := by
    rw [show (11172 : Nat) = 10374 + 798 by norm_num]
    exact ppuRun_chain t13 h14
  have t15 : ppuRun 11970 1 PpuState.new 0 = some ((⟨PpuMode.OAM, 0, 105⟩ : PpuState), 0) := by
    rw [show (11970 : Nat) = 11172 + 798 by norm_num]
    exact ppuRun_chain t14 h15
  have t16 : ppuRun 12768 1 PpuState.new 0 = some ((⟨PpuMode.OAM, 0, 112⟩ : PpuState), 0) := by
    rw [show (12768 : Nat) = 11970 + 798 by norm_num]
    exact ppuRun_chain t15 h16
  have t17 : ppuRun 13566 1 PpuState.new 0 = some ((⟨PpuMode.OAM, 0, 119⟩ : PpuState), 0) := by
    rw [show (13566 : Nat) = 12768 + 798 by norm_num]
    exact ppuRun_chain t16 h17
  have t18 : ppuRun 14364 1 PpuState.new 0 = some ((⟨PpuMode.OAM, 0, 126⟩ : PpuState), 0) := by
    rw [show (14364 : Nat) = 13566 + 798 by norm_num]
    exact ppuRun_chain t17 h18
  have t19 : ppuRun 15162 1 PpuState.new 0 = some ((⟨PpuMode.OAM, 0, 133⟩ : PpuState), 0) := by
    rw [show (15162 : Nat) = 14364 + 798 by norm_num]
    exact ppuRun_chain t18 h19
  have t20 : ppuRun 15960 1 PpuState.new 0 = some ((⟨PpuMode.OAM, 0, 140⟩ : PpuState), 0) := by
    rw [show (15960 : Nat) = 15162 + 798 by norm_num]
    exact ppuRun_chain t19 h20
  have t21 : ppuRun 16758 1 PpuState.new 0 = some ((⟨PpuMode.VBLANK, 0, 147⟩ : PpuState), 0) := by
    rw [show (16758 : Nat) = 15960 + 798 by norm_num]
    exact ppuRun_chain t20 h21
  have tA : ppuRun 17442 1 PpuState.new 0 = some ((⟨PpuMode.OAM, 0, 0⟩ : PpuState), 1) := by
    rw [show (17442 : Nat) = 16758 + 684 by norm_num]
    exact ppuRun_chain t21 hA
  have tB : ppuRun 17556 1 PpuState.new 0 = some ((⟨PpuMode.OAM, 0, 1⟩ : PpuState), 1) := by
    rw [show (17556 : Nat) = 17442 + 114 by norm_num]
    exact ppuRun_chain tA hB
  exact ⟨tA, tB, by decide⟩


/-- C7: while the boot latch is set, every read in 0x0000..=0x00FF
returns the boot-ROM byte; any single write to 0xFF50 clears the latch,
after which — across any further sequence of bus writes — reads of those
addresses return cartridge bank-0 bytes and the latch stays clear. -/
theorem C7_boot_overlay_latch :
    (∀ (m : Memory) (k : Nat), m.boot_enabled = true → k ≤ 0xFF →
        m.read_u8 k = some (m.boot k))
    ∧ (∀ (m : Memory) (v : Nat) (ops : List BusOp) (m' : Memory),
        m.applyAll (BusOp.w8 0xFF50 v :: ops) = some m' →
        m'.boot_enabled = false
          ∧ ∀ k, k ≤ 0xFF → m'.read_u8 k = some (m'.cart_bank_0 k)) := by
  constructor
  · intro m k hb hk
    exact read_u8_boot_on hb hk
  · intro m v ops m' h
    simp only [Memory.applyAll, Memory.apply] at h
    rw [write_u8_ff50] at h
    simp only [option_bind_some] at h
    have hoff : m'.boot_enabled = false := applyAll_boot_off ops h rfl
    exact ⟨hoff, fun k hk => read_u8_boot_off_low hoff hk⟩

/-- Witness for C7 on a concrete bus (boot bytes 7, cart bytes 3): the
overlay read, the post-write latch state and the post-write read. -/
theorem C7_boot_overlay_latch_witness :
    bootMem.read_u8 0 = some (bootMem.boot 0)
    ∧ bootMemOff.boot_enabled = false
    ∧ bootMemOff.read_u8 0 = some (bootMemOff.cart_bank_0 0) := by
  refine ⟨C7_boot_overlay_latch.1 bootMem 0 rfl (by norm_num), ?_, ?_⟩
  · exact (C7_boot_overlay_latch.2 bootMem 5 [] bootMemOff rfl).1
  · exact (C7_boot_overlay_latch.2 bootMem 5 [] bootMemOff rfl).2 0 (by norm_num)

/-- C9: over the whole echo-RAM range 0xE000..=0xFDFF, both the 8-bit
read and the 8-bit write hit the source's `todo!()` and abort without
producing a value or a post-state (so no region is modified). -/
theorem C9_echo_ram_fatal :
    ∀ (m : Memory) (a : Nat), inEcho a →
      m.read_u8 a = none ∧ ∀ v, m.write_u8 a v = none := by
  intro m a ha
  obtain ⟨h1, h2⟩ := ha
  simp only [START_OF_ECHO_RAM] at h1
  simp only [END_OF_ECHO_RAM] at h2
  constructor
  · unfold Memory.read_u8 END_OF_ECHO_RAM
    rw [if_neg (by omega), if_neg (by omega), if_neg (by omega), if_neg (by omega),
      if_neg (by omega), if_pos (by omega)]
  · intro v
    unfold Memory.write_u8 END_OF_ECHO_RAM
    rw [if_neg (by omega), if_neg (by omega), if_neg (by omega), if_neg (by omega),
      if_neg (by omega), if_pos (by omega)]

/-- Witness for C9 at the first echo address. -/
theorem C9_echo_ram_fatal_witness :
    inEcho 0xE000
    ∧ (bootMem.read_u8 0xE000 = none ∧ ∀ v, bootMem.write_u8 0xE000 v = none) :=
  ⟨by decide, C9_echo_ram_fatal bootMem 0xE000 (by decide)⟩

/-- C8 (amended): whenever `write_u16 addr v` completes — which requires
`addr + 1` not to overflow u16 and neither byte to land in echo RAM — and
additionally `addr ∉ {0xFE, 0xFF}` while the boot latch is set, then
`read_u8 addr = v & 0xFF` and `read_u8 (addr+1) = v >> 8`. -/
theorem C8_write16_little_endian_on_ram :
    ∀ (m : Memory) (addr v : Nat) (m' : Memory),
      (m.boot_enabled = true → addr ≠ 0xFE ∧ addr ≠ 0xFF) →
      m.write_u16 addr v = some m' →
      m'.read_u8 addr = some (v &&& 0xFF)
        ∧ m'.read_u8 (addr + 1) = some (v >>> 8) := by
  intro m addr v m' hb h
  unfold Memory.write_u16 u16checkedAdd at h
  by_cases hc : addr + 1 ≤ 0xFFFF
  · rw [if_pos hc] at h
    simp only [option_bind_some] at h
    cases hw1 : m.write_u8 (addr + 1) (v >>> 8) with
    | none =>
        rw [hw1, option_bind_none] at h
        exact Option.noConfusion h
    | some m1 =>
        rw [hw1, option_bind_some] at h
        have hm1boot : m1.boot_enabled = true → m.boot_enabled = true := by
          intro h1
          by_cases hmb : m.boot_enabled = true
          · exact hmb
          · have hmf : m.boot_enabled = false := by
              revert hmb; cases m.boot_enabled <;> simp
            rw [write_u8_boot_off hw1 hmf] at h1
            exact Bool.noConfusion h1
        have hlow : m'.read_u8 addr = some (v &&& 0xFF) :=
          read_after_write_u8_same
            (fun h1 => (hb (hm1boot h1)).2) h
        have hhigh1 : m1.read_u8 (addr + 1) = some (v >>> 8) :=
          read_after_write_u8_same
            (fun h1 => by have := (hb h1).1; omega) hw1
        have hother : m'.read_u8 (addr + 1) = m1.read_u8 (addr + 1) :=
          read_after_write_u8_other h (by omega)
            (fun haddr hc2 => by have := hc2.2; omega)
        exact ⟨hlow, hother.trans hhigh1⟩
  · rw [if_neg hc, option_bind_none] at h
    exact Option.noConfusion h

/-- Counterexample to C8 as stated: with the boot latch set (fresh bus,
boot bytes all 7), `write_u16 0xFE 0x1234` lands its high byte in
cartridge bank 0, but `read_u8 0xFF` still reads the boot ROM and returns
7, not `0x1234 >> 8 = 0x12`. -/
theorem C8_little_endian_counterexample :
    ((bootMem.write_u16 0xFE 0x1234).bind (fun m' => m'.read_u8 0xFF) = some 7)
    ∧ 0x1234 >>> 8 = 0x12 ∧ (7 : Nat) ≠ 0x12 := by decide

/-- Witness for C8 at a VRAM address on a concrete bus. -/
theorem C8_write16_little_endian_on_ram_witness :
    c8Mem.read_u8 0x8000 = some (0x1234 &&& 0xFF)
    ∧ c8Mem.read_u8 (0x8000 + 1) = some (0x1234 >>> 8) :=
  C8_write16_little_endian_on_ram bootMem 0x8000 0x1234 c8Mem
    (fun _ => ⟨by decide, by decide⟩) rfl

/-- C10 (amended): `stack_push16` with `SP ≥ 2` decrements SP by 2 and
performs the 16-bit bus store at the new SP — provided the two target
bytes are outside echo RAM, where the store itself would abort; for
`SP ∈ {0, 1}` the checked `sp - 2` aborts instead of wrapping, and
`stack_pop16` aborts for `SP ≥ 0xFFFE` instead of wrapping to 0. -/
theorem C10_stack_pointer_no_wrap :
    (∀ (regs : Registers) (m : Memory) (v : Nat),
        2 ≤ regs.sp → regs.sp ≤ 0xFFFF →
        ¬ inEcho (regs.sp - 2) → ¬ inEcho (regs.sp - 1) →
        ∃ m', m.write_u16 (regs.sp - 2) v = some m'
          ∧ regs.stack_push16 v m = some ({ regs with sp := regs.sp - 2 }, m'))
    ∧ (∀ (regs : Registers) (m : Memory) (v : Nat), regs.sp < 2 →
        regs.stack_push16 v m = none)
    ∧ (∀ (regs : Registers) (m : Memory), 0xFFFE ≤ regs.sp →
        regs.stack_pop16 m = none) := by
  refine ⟨?_, ?_, ?_⟩
  · intro regs m v h2 hle he1 he2
    obtain ⟨m', hw⟩ := write_u16_some m (regs.sp - 2) v (by omega) he1
      ((show regs.sp - 2 + 1 = regs.sp - 1 by omega) ▸ he2)
    refine ⟨m', hw, ?_⟩
    unfold Registers.stack_push16 u16checkedSub
    rw [if_pos (by omega : 2 ≤ regs.sp)]
    simp only [option_bind_some, hw]
    rfl
  · intro regs m v h2
    unfold Registers.stack_push16 u16checkedSub
    rw [if_neg (by omega), option_bind_none]
  · intro regs m h
    unfold Registers.stack_pop16
    have hB : u16checkedAdd regs.sp 2 = none := by
      unfold u16checkedAdd
      rw [if_neg (by omega)]
    simp only [hB, option_bind_none]
    cases m.read_u16 regs.sp <;> rfl

/-- Counterexample to C10 as stated: at `SP = 0xE002 ≥ 2` the push aborts
(the stored bytes would land in echo RAM), so it does not set SP to
SP − 2 and store the value. -/
theorem C10_stack_pointer_counterexample :
    2 ≤ (0xE002 : Nat)
    ∧ (Registers.stack_push16 { Registers.default with sp := 0xE002 } 0x1234
        bootMem).isSome = false := by decide

/-- Witness for C10: a push at SP = 0xFFFC succeeds into HRAM, a push at
SP = 1 aborts, a pop at SP = 0xFFFE aborts. -/
theorem C10_stack_pointer_no_wrap_witness :
    (∃ m', bootMem.write_u16 0xFFFA 0x1234 = some m'
        ∧ Registers.stack_push16 { Registers.default with sp := 0xFFFC } 0x1234 bootMem
          = some ({ Registers.default with sp := 0xFFFA }, m'))
    ∧ Registers.stack_push16 { Registers.default with sp := 1 } 0x1234 bootMem = none
    ∧ Registers.stack_pop16 { Registers.default with sp := 0xFFFE } bootMem = none := by
  refine ⟨?_, ?_, ?_⟩
  · exact C10_stack_pointer_no_wrap.1 { Registers.default with sp := 0xFFFC } bootMem
      0x1234 (by norm_num) (by norm_num) (by decide) (by decide)
  · exact C10_stack_pointer_no_wrap.2.1 { Registers.default with sp := 1 } bootMem
      0x1234 (by norm_num)
  · exact C10_stack_pointer_no_wrap.2.2 { Registers.default with sp := 0xFFFE } bootMem
      (by norm_num)

end RustBoi
